import Mathlib

/-!
Verification of the milesplit meet-results format-classification and
extraction pipeline (`get_milesplit_formatted_meet_results.py`).

The HTML documents consumed by the program are modelled as trees of
element/text nodes carrying the attributes the program reads (`id`,
`class`, `href`).  BeautifulSoup operations used by the source are
embedded over this tree: `find`/`find_all` walk nodes in document
(pre-order) order; `get_text` concatenates text leaves; a found tag is
*falsy* when it has no contents (BeautifulSoup tags implement length as
the number of children and define no separate truth value).  Python's
`re` backtracking is embedded by a small token-list matcher covering
exactly the constructs the source's patterns use, with Python's
greedy/lazy preference order.  Confidence scores are rationals.
-/

attribute [local semireducible] Rat.add Rat.mul Rat.inv Rat.sub

namespace MeetResults

mutual

/-- An HTML node: an element with tag name, optional `id` attribute,
`class` token list, optional `href` attribute and children, or a text
node. -/
inductive Node where
  | elem (tag : String) (idAttr : Option String) (classes : List String)
      (href : Option String) (children : NodeList)
  | text (s : String)
deriving DecidableEq

/-- A sequence of sibling HTML nodes (a mutual inductive rather than a
nested `List Node`, so that recursion over trees is structural and
kernel-reducible). -/
inductive NodeList where
  | nil
  | cons (head : Node) (tail : NodeList)
deriving DecidableEq

end

/-- Build a `NodeList` from a `List Node`. -/
def NodeList.ofList : List Node → NodeList
  | [] => .nil
  | n :: ns => .cons n (NodeList.ofList ns)

/-- Whether a node sequence is empty. -/
def NodeList.isEmpty : NodeList → Bool
  | .nil => true
  | .cons _ _ => false

/-- A parsed HTML document: the list of top-level nodes. -/
abbrev Html := List Node

mutual

/-- All nodes of the subtree rooted at a node, in document (pre-order)
order, the root included. -/
def Node.selfAndDescendants : Node → List Node
  | .text s => [.text s]
  | .elem t i c h cs => .elem t i c h cs :: cs.selfAndDescendants

/-- All nodes of a sibling sequence's subtrees in document order. -/
def NodeList.selfAndDescendants : NodeList → List Node
  | .nil => []
  | .cons n ns => n.selfAndDescendants ++ ns.selfAndDescendants

end

/-- All nodes of a forest in document order. -/
def nodesSelfAndDescendants : List Node → List Node
  | [] => []
  | n :: ns => n.selfAndDescendants ++ nodesSelfAndDescendants ns

/-- The children of a node (`tag.contents`). -/
def Node.childSeq : Node → NodeList
  | .elem _ _ _ _ cs => cs
  | .text _ => .nil

/-- Strict descendants of a node, in document order. -/
def Node.descendants (n : Node) : List Node :=
  n.childSeq.selfAndDescendants

/-- Whether a node is an element with the given tag name. -/
def Node.isTag (t : String) : Node → Bool
  | .elem t2 _ _ _ _ => t2 = t
  | .text _ => false

/-- The `id` attribute of a node, when present. -/
def Node.getId : Node → Option String
  | .elem _ i _ _ _ => i
  | .text _ => none

/-- The `class` attribute token list of a node (`tag.get("class", [])`). -/
def Node.getClasses : Node → List String
  | .elem _ _ c _ _ => c
  | .text _ => []

/-- The `href` attribute of a node, when present. -/
def Node.getHref : Node → Option String
  | .elem _ _ _ h _ => h
  | .text _ => none

/-- Python truthiness of a BeautifulSoup tag or string: a tag is truthy
when it has contents, a navigable string when it is nonempty. -/
def tagTruthy : Node → Bool
  | .elem _ _ _ _ cs => !cs.isEmpty
  | .text s => s ≠ ""

/-- Python truthiness of a `find` result (`None` is falsy). -/
def optTruthy : Option Node → Bool
  | some n => tagTruthy n
  | none => false

/-- Python `a or b` on two `find` results: `a` when truthy, else `b`. -/
def pyOrNode (a b : Option Node) : Option Node :=
  if optTruthy a then a else b

/-- All nodes of a document in document order (the search space of
`soup.find` / `soup.find_all`). -/
def allNodes (h : Html) : List Node := nodesSelfAndDescendants h

/-- Embeds `soup.find_all(tag)`: every element of the document with the tag. -/
def allTag (t : String) (h : Html) : List Node :=
  (allNodes h).filter (Node.isTag t)

/-- Embeds `element.find_all(tag)`: every descendant element with the tag. -/
def descTag (t : String) (n : Node) : List Node :=
  n.descendants.filter (Node.isTag t)

/-- Embeds `element.find(tag)`: first descendant element with the tag. -/
def firstDescTag (t : String) (n : Node) : Option Node :=
  n.descendants.find? (Node.isTag t)

/-- Embeds `soup.find(id=v)`: first node of the document whose id is `v`. -/
def findById (v : String) (h : Html) : Option Node :=
  (allNodes h).find? (fun n => n.getId == some v)

/-- Embeds `soup.find(class_=v)`: first node whose class tokens include `v`. -/
def findByClass (v : String) (h : Html) : Option Node :=
  (allNodes h).find? (fun n => n.getClasses.contains v)

/-- The text-leaf strings of a subtree in document order. -/
def Node.texts (n : Node) : List String :=
  n.selfAndDescendants.filterMap fun m =>
    match m with
    | .text s => some s
    | .elem _ _ _ _ _ => none

/-- Python ASCII whitespace (the characters `str.strip` and `\s` treat
as space). -/
def isPySpace (c : Char) : Bool :=
  c = ' ' || c = '\t' || c = '\n' || c = '\r' || c = '\x0b' || c = '\x0c'

/-- Python `str.strip()`. -/
def pyStrip (s : String) : String :=
  String.mk (((s.data.dropWhile isPySpace).reverse.dropWhile isPySpace).reverse)

/-- Leading-segment test on character lists. -/
def charsStartWith : List Char → List Char → Bool
  | [], _ => true
  | _ :: _, [] => false
  | a :: as, b :: bs => a = b && charsStartWith as bs

/-- Substring search on character lists: the needle occurs at some
position of the haystack. -/
def charsSubstr (needle : List Char) : List Char → Bool
  | [] => charsStartWith needle []
  | c :: rest => charsStartWith needle (c :: rest) || charsSubstr needle rest

/-- Python `needle in hay` substring test. -/
def pySubstr (needle hay : String) : Bool :=
  charsSubstr needle.data hay.data

/-- ASCII lowercasing of one character. -/
def charLower (c : Char) : Char :=
  if 65 ≤ c.toNat && c.toNat ≤ 90 then Char.ofNat (c.toNat + 32) else c

/-- ASCII uppercasing of one character. -/
def charUpper (c : Char) : Char :=
  if 97 ≤ c.toNat && c.toNat ≤ 122 then Char.ofNat (c.toNat - 32) else c

/-- Python `str.lower()` (ASCII). -/
def pyLower (s : String) : String := String.mk (s.data.map charLower)

/-- Concatenation of strings. -/
def joinStrings (parts : List String) : String :=
  String.mk ((parts.map String.data).flatten)

/-- Interleave a separator between strings. -/
def sepJoinChars (sep : List Char) : List String → List Char
  | [] => []
  | [p] => p.data
  | p :: q :: rest => p.data ++ sep ++ sepJoinChars sep (q :: rest)

/-- Join strings with a separator. -/
def sepJoin (sep : String) (parts : List String) : String :=
  String.mk (sepJoinChars sep.data parts)

/-- Python `a <= b` on rationals, computably (`Rat.blt` is the kernel's
comparison; `a ≤ b` on `ℚ` is definitionally `Rat.blt b a = false`). -/
def ratLeb (a b : ℚ) : Bool := !(Rat.blt b a)

/-- Python `min(a, b)`: the second argument only when strictly
smaller (ties keep the first). -/
def pyMin (a b : ℚ) : ℚ := if Rat.blt b a then b else a

/-- Embeds `tag.get_text()`: concatenation of all text leaves. -/
def rawText (n : Node) : String := joinStrings n.texts

/-- Embeds `tag.get_text(sep, strip=True)`: strip each text leaf, drop the ones
that become empty, join with the separator. -/
def getTextStrip (sep : String) (n : Node) : String :=
  sepJoin sep ((n.texts.map pyStrip).filter (fun s => s ≠ ""))

/-- A line-break character for Python `str.splitlines`. -/
def isLineBreak (c : Char) : Bool :=
  c = '\n' || c = '\r' || c = '\x0b' || c = '\x0c' ||
  c = '\x1c' || c = '\x1d' || c = '\x1e' || c = '\x85' ||
  c = '\u2028' || c = '\u2029'

/-- Worker for `pySplitlines`: accumulates the current line reversed. -/
def splitlinesAux : List Char → List Char → List String
  | [], acc => if acc.isEmpty then [] else [String.mk acc.reverse]
  | '\r' :: '\n' :: rest, acc => String.mk acc.reverse :: splitlinesAux rest []
  | c :: rest, acc =>
    if isLineBreak c then String.mk acc.reverse :: splitlinesAux rest []
    else splitlinesAux rest (c :: acc)

/-- Python `str.splitlines()`. -/
def pySplitlines (s : String) : List String := splitlinesAux s.data []

/-- Python `str.title()`: a letter starts uppercased when the previous
character is not a letter, and is lowercased otherwise. -/
def pyTitleAux : Bool → List Char → List Char
  | _, [] => []
  | prevAlpha, c :: rest =>
    if c.isAlpha then
      (if prevAlpha then charLower c else charUpper c) :: pyTitleAux true rest
    else
      c :: pyTitleAux false rest

/-- Python `str.title()`. -/
def pyTitle (s : String) : String := String.mk (pyTitleAux false s.data)

/-- Python `int(s)` on a string of decimal digits. -/
def digitsToNat (s : String) : Nat :=
  s.data.foldl (fun acc c => acc * 10 + (c.toNat - '0'.toNat)) 0

/-! ### Regular-expression matching

Python's `re` backtracking is embedded for the fixed patterns the source
uses.  Each pattern is a token list; every token consumes a contiguous
chunk of the input and enumerates its candidate lengths in Python's
preference order (greedy: longest first; lazy: shortest first; optional
group: present before absent).  The matcher tries tokens left to right
and backtracks, exactly as Python's engine does, and is anchored at the
start of the input with no end anchor, matching `re.match`. -/

/-- One token of an embedded pattern; repetition bodies are single
character classes, which is all the source's patterns need. -/
inductive Tok where
  /-- Greedy `p*`. -/
  | star (p : Char → Bool)
  /-- Greedy `p+`. -/
  | plus (p : Char → Bool)
  /-- Lazy `p+?`. -/
  | lazyPlus (p : Char → Bool)
  /-- Greedy optional group `(p+)?`; a zero-length match means the group
  is absent. -/
  | optPlus (p : Char → Bool)
  /-- Greedy counted repetition `p{lo,hi}`. -/
  | rep (lo hi : Nat) (p : Char → Bool)
  /-- A literal character. -/
  | lit (c : Char)

/-- Length of the maximal prefix run of characters satisfying `p`. -/
def runLen (p : Char → Bool) (cs : List Char) : Nat :=
  (cs.takeWhile p).length

/-- Candidate consumption lengths of a token on an input, in Python's
backtracking preference order. -/
def Tok.lens : Tok → List Char → List Nat
  | .star p, cs => (List.range (runLen p cs + 1)).reverse
  | .plus p, cs => ((List.range (runLen p cs + 1)).reverse).filter (0 < ·)
  | .lazyPlus p, cs => (List.range (runLen p cs + 1)).filter (0 < ·)
  | .optPlus p, cs => ((List.range (runLen p cs + 1)).reverse).filter (0 < ·) ++ [0]
  | .rep lo hi p, cs =>
    ((List.range (hi + 1)).reverse).filter (fun k => lo ≤ k && k ≤ runLen p cs)
  | .lit c, cs =>
    match cs with
    | c2 :: _ => if c2 = c then [1] else []
    | [] => []

/-- Backtracking matcher: on success returns the chunk each token
consumed, in order. -/
def matchToks : List Tok → List Char → Option (List String)
  | [], _ => some []
  | t :: ts, cs =>
    (t.lens cs).findSome? fun k =>
      (matchToks ts (cs.drop k)).map fun rest => String.mk (cs.take k) :: rest

/-- Python `.` (any character but a newline). -/
def isDot (c : Char) : Bool := c ≠ '\n'

/-- ASCII decimal digit (`\d`). -/
def isDigitChar (c : Char) : Bool := c.isDigit

/-! ### Canonical schema and cell values -/

/-- A Python value stored in a result row: a string, an integer,
`None`, or `pd.NA` (the pandas missing-value marker; like `None` it
denotes absent data). -/
inductive Val where
  | str (s : String)
  | nat (n : Nat)
  | null
  | na
deriving DecidableEq, Repr

/-- A result row, as the Python dict it is built from: an association
list in insertion order. -/
abbrev Row := List (String × Val)

/-- The keys of a row. -/
def rowKeys (r : Row) : List String := r.map Prod.fst

/-- The constant `INDIVIDUAL_TABLE_HEADERS`. -/
def INDIVIDUAL_TABLE_HEADERS : List String :=
  ["place", "video", "athlete", "grade", "team", "finish", "point"]

/-- The constant `TEAM_TABLE_HEADERS`. -/
def TEAM_TABLE_HEADERS : List String :=
  ["place", "tsTeam", "point", "wind", "heat"]

/-! ### `detect_cole` (PreBlockFormat detector) -/

/-- The constant `REQUIRED_HEADERS_COLE`. -/
def REQUIRED_HEADERS_COLE : List String := ["pl", "athlete", "yr", "team", "time"]

/-- Embeds `soup.find(id="meetResultsBody") or soup.find(class_="meetResultsBody")`. -/
def coleContainer (h : Html) : Option Node :=
  pyOrNode (findById "meetResultsBody" h) (findByClass "meetResultsBody" h)

/-- Whether one preformatted block's text contains every required Cole
header token (`all(h in text for h in REQUIRED_HEADERS_COLE)` on
`pre.get_text(" ", strip=True).lower()`). -/
def coleHeaderHit (pre : Node) : Bool :=
  REQUIRED_HEADERS_COLE.all fun t => pySubstr t (pyLower (getTextStrip " " pre))

/-- Whether a preformatted block's raw text contains "team scores". -/
def preHasTeamScores (pre : Node) : Bool :=
  pySubstr "team scores" (pyLower (rawText pre))

/-- The strong indicator of `detect_cole`: 0.6 when some `<pre>` block
inside the container carries all required header tokens. -/
def coleStrong (body : Node) : ℚ :=
  if (descTag "pre" body).any coleHeaderHit then 6/10 else 0

/-- The weak indicator of `detect_cole`: add 0.1 unless some `<pre>`
block mentions "team scores". -/
def coleWeak (body : Node) (s : ℚ) : ℚ :=
  if (descTag "pre" body).any preHasTeamScores then s else s + 1/10

/-- The detector `detect_cole`: confidence that a page uses Cole's (PreBlockFormat)
results format.  Missing or empty container is a veto; so is the
presence of a `<table>` or the absence of any `<pre>` inside it. -/
def detect_cole (h : Html) : ℚ :=
  match coleContainer h with
  | none => 0
  | some body =>
    if tagTruthy body = false then 0
    else if (!(descTag "pre" body).isEmpty && (descTag "table" body).isEmpty) = true then
      pyMin 1 (coleWeak body (coleStrong body + 3/10))
    else 0

/-! ### `wrangle_cole` (PreBlockFormat extractor) -/

/-- The embedded pattern of
`^\s*(\d+)\s+(.+?)\s+(\d+)?\s+(.+?)\s+(\d{1,2}:\d{2}\.\d)`;
tokens 1, 3, 5, 7 and 9–13 carry groups 1–5. -/
def colePattern : List Tok :=
  [ .star isPySpace, .plus isDigitChar, .plus isPySpace, .lazyPlus isDot,
    .plus isPySpace, .optPlus isDigitChar, .plus isPySpace, .lazyPlus isDot,
    .plus isPySpace, .rep 1 2 isDigitChar, .lit ':', .rep 2 2 isDigitChar,
    .lit '.', .rep 1 1 isDigitChar ]

/-- Whether a line starts with a place number
(`re.match(r"^\s*\d+", ln)`). -/
def startsWithPlace (ln : String) : Bool :=
  match (ln.data.dropWhile isPySpace) with
  | c :: _ => isDigitChar c
  | [] => false

/-- Parse one data line of a Cole-format block into a row; lines the
pattern rejects are dropped. -/
def lineToRow (ln : String) : Option Row :=
  match matchToks colePattern ln.data with
  | none => none
  | some chunks =>
    let g1 := chunks.getD 1 ""
    let g2 := chunks.getD 3 ""
    let g3 := chunks.getD 5 ""
    let g4 := chunks.getD 7 ""
    let g5 := joinStrings [chunks.getD 9 "", chunks.getD 10 "", chunks.getD 11 "",
      chunks.getD 12 "", chunks.getD 13 ""]
    some [("place", .nat (digitsToNat g1)),
          ("video", .null),
          ("athlete", .str (pyTitle (pyStrip g2))),
          ("grade", if g3 = "" then .na else .nat (digitsToNat g3)),
          ("team", .str (pyStrip g4)),
          ("finish", .str g5),
          ("point", .na)]

/-- Embeds `soup.find("div", id="meetResultsBody")`. -/
def wrangleDiv (h : Html) : Option Node :=
  (allNodes h).find? fun n => n.isTag "div" && n.getId == some "meetResultsBody"

/-- The extractor `wrangle_cole`: parse Cole-style pages.  Returns the emitted rows;
the empty list stands for the empty frame the source returns when the
`div#meetResultsBody` container or its `<pre>` block is missing.  The
`race_url` argument is accepted and, as in the source, unused. -/
def wrangle_cole (h : Html) (_race_url : Option String) : List Row :=
  match wrangleDiv h with
  | none => []
  | some d =>
    if tagTruthy d = false then []
    else
      match firstDescTag "pre" d with
      | none => []
      | some pre =>
        if tagTruthy pre = false then []
        else
          let lines := pySplitlines (getTextStrip "\n" pre)
          (lines.filter startsWithPlace).filterMap lineToRow

/-! ### `detect_max` (LegacyEventTableFormat detector) -/

/-- The required header labels of `detect_max`. -/
def REQUIRED_HEADERS_MAX : List String :=
  ["place", "athlete", "grade", "team", "avg mile", "finish", "points"]

/-- Whether a table's class token list includes the `eventtable` marker
(`any("eventtable" in c for c in classes)` on lowercased tokens). -/
def hasEventTableClass (t : Node) : Bool :=
  t.getClasses.any fun c => pySubstr "eventtable" (pyLower c)

/-- The table the `detect_max` loop selects: the first table whose
class list does NOT include the `eventtable` marker (the loop's
condition is `if not any("eventtable" in c for c in classes)`). -/
def maxSelectedTable (h : Html) : Option Node :=
  (allTag "table" h).find? fun t => !hasEventTableClass t

/-- The lowercased `<th>` texts of a table. -/
def maxHeaderTexts (t : Node) : List String :=
  (descTag "th" t).map fun th => pyLower (getTextStrip " " th)

/-- Embeds `len(REQUIRED_HEADERS.intersection(headers_found))`: how many of the
required labels occur among the table's header texts. -/
def maxMatched (t : Node) : Nat :=
  (REQUIRED_HEADERS_MAX.filter fun r => (maxHeaderTexts t).contains r).length

/-- Embeds `table.select("tbody a[href]")`: the `<a>` descendants carrying an
`href` attribute of the `<tbody>` descendants of the table. -/
def maxBodyLinks (t : Node) : List Node :=
  (descTag "tbody" t).flatMap fun tb =>
    (descTag "a" tb).filter fun a => a.getHref.isSome

/-- The detector `detect_max`: confidence that a page uses the legacy event-table
format, exactly as the source computes it (including the selection of
the first table *without* the `eventtable` class marker). -/
def detect_max (h : Html) : ℚ :=
  match maxSelectedTable h with
  | none => 0
  | some t =>
    if tagTruthy t = false then 0
    else
      pyMin ((if maxMatched t ≠ 0 then
              6/10 + 3/10 * ((maxMatched t : ℚ) / (REQUIRED_HEADERS_MAX.length : ℚ))
            else 6/10)
           + (if (maxBodyLinks t).length = 0 then 1/10 else 0)) 1

/-! ### `extract_race_id` and `extract_table_data` -/

/-- One attempt of `re.search(r"results/(\d+)/", url)` at a fixed
position: the literal `results/`, then a maximal nonempty digit run,
then `/`. -/
def raceIdHere (cs : List Char) : Option String :=
  match cs.dropPrefix? "results/".data with
  | none => none
  | some rest =>
    let ds := rest.takeWhile isDigitChar
    if ds.isEmpty then none
    else match rest.drop ds.length with
      | '/' :: _ => some (String.mk ds)
      | _ => none

/-- Leftmost-position search worker for `extract_race_id`. -/
def raceIdSearch : List Char → Option String
  | [] => none
  | c :: rest =>
    match raceIdHere (c :: rest) with
    | some s => some s
    | none => raceIdSearch rest

/-- Embeds `extract_race_id`: the race ID captured by searching the URL for
`results/(\d+)/`. -/
def extract_race_id (url : String) : Option String :=
  raceIdSearch url.data

/-- A per-table metadata record appended by `extract_table_data`. -/
structure TableMeta where
  race_id : Option String
  url : String
  table_index : Nat
  table_type : String
  row_count : Nat
deriving DecidableEq, Repr

/-- The value of `extract_table_data`: the individual rows, the team
rows, and the metadata records (the source wraps the same lists into
pandas frames). -/
structure ExtractOut where
  individual : List Row
  team : List Row
  metadata : List TableMeta
deriving DecidableEq, Repr

/-- The message of the `IndexError` raised by `rows[1]` when a table
holds exactly one row. -/
def indexErrorMsg : String := "IndexError: list index out of range"

/-- The message of the `NameError` raised because the source calls
the undefined name `extraccheckt_race_id`. -/
def nameErrorMsg : String := "NameError: name 'extraccheckt_race_id' is not defined"

/-- The header "names" of a table row: the first class token of each
`<td>` (`cell.get('class', [None])[0]`); `none` models Python's `None`. -/
def headerNames (first_row : Node) : List (Option String) :=
  (descTag "td" first_row).map fun c => c.getClasses.head?

/-- Membership of a header name in a header list; Python's `None` is in
neither header list. -/
def headerIn (hs : List String) : Option String → Bool
  | some s => hs.contains s
  | none => false

/-- The dict key used for a header (only reachable for real strings in
typed tables, where every header passed the membership check). -/
def headerKey : Option String → String
  | some s => s
  | none => "None"

/-- Python dict assignment `d[k] = v` on an insertion-ordered dict:
overwrite in place when the key exists, else append. -/
def upsert (k : String) (v : Val) : Row → Row
  | [] => [(k, v)]
  | (k2, v2) :: rest => if k2 = k then (k, v) :: rest else (k2, v2) :: upsert k v rest

/-- Add one cell's text (and its link's `href`, when the cell holds a
truthy `<a>` with a nonempty `href`) to a row under its header key. -/
def addCell (acc : Row) (hc : Option String × Node) : Row :=
  let key := headerKey hc.1
  let cell := hc.2
  let acc1 := upsert key (.str (pyStrip (rawText cell))) acc
  match firstDescTag "a" cell with
  | none => acc1
  | some link =>
    if tagTruthy link then
      match link.getHref with
      | some hr => if hr ≠ "" then upsert (key ++ "_url") (.str hr) acc1 else acc1
      | none => acc1
    else acc1

/-- Build the row dict for one data row: `race_id` and `race_url` first,
then each header's cell text and optional link. -/
def cellsToRow (rid : Option String) (url : String)
    (headers : List (Option String)) (cells : List Node) : Row :=
  (headers.zip cells).foldl addCell
    [("race_id", match rid with | some s => .str s | none => .null),
     ("race_url", .str url)]

/-- The data rows a typed table emits: every row of `rows[1:]` whose
cell count equals the header count (mismatched rows are skipped).  Note
`rows[1:]` starts at the header row itself, so the header row is also
emitted as data. -/
def tableDataRows (rid : Option String) (url : String)
    (headers : List (Option String)) (rows : List Node) : List Row :=
  (rows.drop 1).filterMap fun row =>
    let cells := descTag "td" row
    if cells.length = headers.length then some (cellsToRow rid url headers cells)
    else none

/-- Process one table of the page, mirroring one iteration of the
source's table loop: empty tables and unknown-header tables only add a
metadata record; `rows[1]` raises when the table has exactly one row. -/
def processOneTable (rid : Option String) (url : String) (t : Node)
    (idx : Nat) : Except String (List Row × List Row × List TableMeta) :=
  let rows := descTag "tr" t
  if rows.isEmpty then .ok ([], [], [⟨rid, url, idx + 1, "empty", 0⟩])
  else
    match rows[1]? with
    | none => .error indexErrorMsg
    | some first_row =>
      let headers := headerNames first_row
      if headers.all (headerIn INDIVIDUAL_TABLE_HEADERS) then
        .ok (tableDataRows rid url headers rows, [],
          [⟨rid, url, idx + 1, "individual", rows.length - 1⟩])
      else if headers.all (headerIn TEAM_TABLE_HEADERS) then
        .ok ([], tableDataRows rid url headers rows,
          [⟨rid, url, idx + 1, "team", rows.length - 1⟩])
      else
        .ok ([], [], [⟨rid, url, idx + 1, "unknown_headers", rows.length - 1⟩])

/-- Process the page's tables in order, accumulating rows and metadata;
the first raised error aborts the whole extraction, as in Python. -/
def processTables (rid : Option String) (url : String) :
    List Node → Nat → Except String (List Row × List Row × List TableMeta)
  | [], _ => .ok ([], [], [])
  | t :: ts, idx =>
    match processOneTable rid url t idx with
    | .error e => .error e
    | .ok (i1, t1, m1) =>
      match processTables rid url ts (idx + 1) with
      | .error e => .error e
      | .ok (i2, t2, m2) => .ok (i1 ++ i2, t1 ++ t2, m1 ++ m2)

/-- The body of `extract_table_data`, generic in the function the first
line calls to obtain the race ID (the source calls the undefined name
`extraccheckt_race_id` there). -/
def extract_table_data_gen (raceId : String → Except String (Option String))
    (page_content : Html) (url : String) : Except String ExtractOut :=
  match raceId url with
  | .error e => .error e
  | .ok rid =>
    let tables := allTag "table" page_content
    if tables.isEmpty then .ok ⟨[], [], []⟩
    else
      match processTables rid url tables 0 with
      | .error e => .error e
      | .ok (i, t, m) => .ok ⟨i, t, m⟩

/-- The call the source actually makes: the name
`extraccheckt_race_id` is not defined anywhere in the repository, so the
call raises `NameError`. -/
def extraccheckt_race_id_call : String → Except String (Option String) :=
  fun _ => .error nameErrorMsg

/-- The extractor `extract_table_data` as written: its first line calls the undefined
name `extraccheckt_race_id`, so it raises on every input. -/
def extract_table_data (page_content : Html) (url : String) :
    Except String ExtractOut :=
  extract_table_data_gen extraccheckt_race_id_call page_content url

/-- The extractor `extract_table_data` with the obvious name slip corrected to the
`extract_race_id` defined four lines above it in the source; isolates
the behaviour of the rest of the function. -/
def extract_table_data_fixedName (page_content : Html) (url : String) :
    Except String ExtractOut :=
  extract_table_data_gen (fun u => .ok (extract_race_id u)) page_content url

/-! ### The classifier inside `process_urls_and_save` -/

/-- Worker for `pyDictMaxKey`: a later key replaces the champion only
when its value is strictly greater. -/
def pyDictMaxKeyAux (k : String) (v : ℚ) : List (String × ℚ) → String
  | [] => k
  | (k2, v2) :: rest =>
    if Rat.blt v v2 then pyDictMaxKeyAux k2 v2 rest else pyDictMaxKeyAux k v rest

/-- Python `max(scores, key=scores.get)` on an insertion-ordered dict:
the first key whose value is maximal; `none` only on an empty dict. -/
def pyDictMaxKey : List (String × ℚ) → Option String
  | [] => none
  | (k, v) :: rest => some (pyDictMaxKeyAux k v rest)

/-- Dict value lookup with Python's `scores[k]`. -/
def scoreOf (scores : List (String × ℚ)) (k : String) : ℚ :=
  match scores.find? (fun p => p.1 = k) with
  | some p => p.2
  | none => 0

/-- The classification outcome of one page, as the spec's data model
names it. -/
structure ClassificationOutcome where
  winning_format : Option String
  confidence : ℚ
  accepted : Bool
deriving DecidableEq, Repr

/-- The score dict `{"cole": ..., "adam": ..., "max": ...}` built in
`process_urls_and_save`, in insertion order.  `detect_adam` is not
defined in the repository, so its score is a parameter. -/
def scoresDict (cole adam mx : ℚ) : List (String × ℚ) :=
  [("cole", cole), ("adam", adam), ("max", mx)]

/-- The selection and threshold logic of `process_urls_and_save`:
`best_detector = max(scores, key=scores.get)`, `best_score =
scores[best_detector]`, accepted when `best_score >= 0.7`. -/
def classify_scores (cole adam mx : ℚ) : ClassificationOutcome :=
  let scores := scoresDict cole adam mx
  match pyDictMaxKey scores with
  | none => ⟨none, 0, false⟩
  | some best =>
    let bestScore := scoreOf scores best
    ⟨some best, bestScore, ratLeb (7/10) bestScore⟩

/-- The wrangler-routing block of `process_urls_and_save`: below the
threshold no wrangler runs and the individual frame stays empty; the
`adam` and `max` branches call wranglers that are not defined in the
repository, raising `NameError`. -/
def route_wrangle (h : Html) (url : String) (cole adam mx : ℚ) :
    Except String (List Row) :=
  let scores := scoresDict cole adam mx
  match pyDictMaxKey scores with
  | none => .ok []
  | some best =>
    let bestScore := scoreOf scores best
    if best == "cole" && ratLeb (7/10) bestScore then
      .ok (wrangle_cole h (some url))
    else if best == "adam" && ratLeb (7/10) bestScore then
      .error "NameError: name 'wrangle_adam' is not defined"
    else if best == "max" && ratLeb (7/10) bestScore then
      .error "NameError: name 'wrangle_max' is not defined"
    else .ok []

/-! ### Concrete pages used by the theorems -/

/-- A `<th>` cell holding one text. -/
def thCell (s : String) : Node := .elem "th" none [] none (.ofList [.text s])

/-- A `<td>` cell with one class token holding one text. -/
def tdCell (cls s : String) : Node := .elem "td" none [cls] none (.ofList [.text s])

/-- The preformatted text of spec Scenario A. -/
def preText5 : String :=
  "Pl Athlete Yr Team Time\n1 John Smith 11 Lincoln High 16:32.1"

/-- The `<pre>` block of Scenario A. -/
def preNode5 : Node := .elem "pre" none [] none (.ofList [.text preText5])

/-- Scenario A's page: a `div#meetResultsBody` holding the `<pre>`
block, no table, no "Team Scores" text. -/
def exC5 : Html := [.elem "div" (some "meetResultsBody") [] none (.ofList [preNode5])]

/-- The row Scenario A expects. -/
def row5 : Row :=
  [("place", .nat 1), ("video", .null), ("athlete", .str "John Smith"),
   ("grade", .nat 11), ("team", .str "Lincoln High"),
   ("finish", .str "16:32.1"), ("point", .na)]

/-- Scenario C's table: class token `eventTable`, header cells exactly
the seven required legacy labels, one body row, zero hyperlinks. -/
def exC1tbl : Node := .elem "table" none ["eventTable"] none (.ofList
  [ .elem "thead" none [] none (.ofList [.elem "tr" none [] none (.ofList
      [thCell "Place", thCell "Athlete", thCell "Grade", thCell "Team",
       thCell "Avg Mile", thCell "Finish", thCell "Points"])]),
    .elem "tbody" none [] none (.ofList [.elem "tr" none [] none (.ofList
      [.elem "td" none [] none (.ofList [.text "1"])])])])

/-- Scenario C's page: only the `eventTable`-classed table. -/
def exC1 : Html := [exC1tbl]

/-- A page matching neither registered format. -/
def exC2 : Html := [.elem "p" none [] none (.ofList [.text "hello"])]

/-- A page whose only table has no class marker at all: one plain table
with a body row and no links. -/
def exC7 : Html := [.elem "table" none [] none (.ofList
  [.elem "tbody" none [] none (.ofList [.elem "tr" none [] none (.ofList
    [.elem "td" none [] none (.ofList [.text "1"])])])])]

/-- A `meetResultsBody` container that holds a `<table>`, for the
secondary-veto witness; its `<pre>` block carries the strong marker. -/
def exC6body : Node := .elem "div" (some "meetResultsBody") [] none (.ofList
  [ preNode5,
    .elem "table" none [] none (.ofList [.elem "tr" none [] none (.ofList
      [.elem "td" none [] none (.ofList [.text "1"])])])])

/-- The page around `exC6body`. -/
def exC6 : Html := [exC6body]

/-- A Cole page whose container carries `meetResultsBody` only as a
class token, with no id anywhere. -/
def exC9 : Html := [.elem "div" none ["meetResultsBody"] none (.ofList [preNode5])]

/-- A page whose only table has exactly one `<tr>` row. -/
def exC10tbl : Node := .elem "table" none [] none (.ofList
  [.elem "tr" none [] none (.ofList [.elem "td" none [] none (.ofList [.text "1"])])])

/-- The page around `exC10tbl`. -/
def exC10 : Html := [exC10tbl]

/-- A page with an individual-typed table whose header row names only
`place` and `athlete`: the first `<tr>` is filler, the second is the
header row the source reads. -/
def exC4 : Html := [.elem "table" none [] none (.ofList
  [ .elem "tr" none [] none (.ofList [.elem "td" none [] none (.ofList [.text "filler"])]),
    .elem "tr" none [] none (.ofList [tdCell "place" "1", tdCell "athlete" "Jo Roe"]),
    .elem "tr" none [] none (.ofList [tdCell "place" "2", tdCell "athlete" "Al Poe"])])]

end MeetResults

namespace MeetResults

/-! ### Claim theorems -/

/-- C5: on Scenario A's page — container id `meetResultsBody`, one
preformatted block with the header tokens and the line
`1 John Smith 11 Lincoln High 16:32.1`, no table, no "Team Scores" —
`detect_cole` returns exactly 1.0 (0.6 + 0.3 + 0.1) and `wrangle_cole`
yields exactly the one expected row, with `video` null and `point`
absent (`pd.NA`). -/
theorem claim_C5 : detect_cole exC5 = 1 ∧ wrangle_cole exC5 none = [row5] := by
  exact ⟨by decide, by decide⟩

/-- C1 (code bug): Scenario C's page — a single table whose class
tokens include `eventTable`, header cells exactly the seven required
legacy labels, zero hyperlinks in the body — gets `detect_max`
confidence 0, not the 1.0 the spec states: the loop selects the first
table whose class list does NOT contain `eventtable`, inverted with
respect to its own comments, so the marked table is never selected.
The remaining conjuncts record that the page really satisfies the
claim's premise. -/
theorem claim_C1 :
    detect_max exC1 = 0 ∧
    hasEventTableClass exC1tbl = true ∧
    maxMatched exC1tbl = 7 ∧
    (maxBodyLinks exC1tbl).length = 0 := by
  decide

/-- C7 (code bug): on a page whose only table carries no class marker,
`detect_cole` is 0 as the claim says, but `detect_max` returns 0.7
rather than 0.0: the inverted selection condition picks the markerless
table and scores it 0.6 + 0.1. -/
theorem claim_C7 :
    detect_cole exC7 = 0 ∧
    detect_max exC7 = 7/10 ∧
    (allTag "table" exC7).all (fun t => !hasEventTableClass t) = true := by
  decide

/-- C3 (code bug): `extract_table_data` raises on every input — its
first line calls `extraccheckt_race_id`, a name defined nowhere in the
repository, so a `NameError` propagates before any parsing happens;
the spec says extractors never propagate and degrade to empty
results. -/
theorem claim_C3 (h : Html) (url : String) :
    extract_table_data h url = .error nameErrorMsg := rfl

/-- C2 counterexample: at a page matching neither format every detector
scores 0.0, yet the classification still reports a winner: Python's
`max` over the score dict returns its first key, so
`winning_format = some "cole"`, not `None` as the claim states. -/
theorem claim_C2_cx :
    detect_cole exC2 = 0 ∧ detect_max exC2 = 0 ∧
    (classify_scores (detect_cole exC2) 0 (detect_max exC2)).winning_format
      = some "cole" := by
  decide

/-- C2 as amended: when every registered detector returns 0.0 the
outcome names `"cole"` (the dict's first key) as the winner, the
confidence is 0, acceptance is false, and no wrangler runs — zero rows
are produced. -/
theorem claim_C2 (h : Html) (url : String) :
    classify_scores 0 0 0 = ⟨some "cole", 0, false⟩ ∧
    route_wrangle h url 0 0 0 = .ok [] := by
  exact ⟨by decide, rfl⟩

/-- C6: whenever the container `detect_cole` locates holds at least one
`<table>` descendant, or holds no `<pre>` descendant, the detector
returns exactly 0 — the failed structural shape is a veto, not a
partial score, whatever else the page contains. -/
theorem claim_C6 (h : Html) (b : Node) (hc : coleContainer h = some b)
    (hshape : (descTag "table" b).isEmpty = false ∨ (descTag "pre" b).isEmpty = true) :
    detect_cole h = 0 := by
  simp only [detect_cole, hc]
  by_cases ht : tagTruthy b = false
  · simp [ht]
  · rcases hshape with h1 | h1 <;> simp [ht, h1]

/-- Witness for C6: a `meetResultsBody` container that carries the
strong `<pre>` header marker but also a `<table>` scores 0. -/
theorem claim_C6_witness : detect_cole exC6 = 0 :=
  claim_C6 exC6 exC6body (by decide) (Or.inl (by decide))

/-- The value `pyMin a b` is at most `a`. -/
theorem pyMin_le_left (a b : ℚ) : pyMin a b ≤ a := by
  unfold pyMin
  split
  · next hblt => exact le_of_lt hblt
  · exact le_refl a

/-- The value `pyMin a b` is at most `b`. -/
theorem pyMin_le_right (a b : ℚ) : pyMin a b ≤ b := by
  unfold pyMin
  split
  · exact le_refl b
  · next hblt => exact (Bool.not_eq_true _).mp hblt

/-- Applying `pyMin` to nonnegative arguments is nonnegative. -/
theorem pyMin_nonneg {a b : ℚ} (ha : 0 ≤ a) (hb : 0 ≤ b) : 0 ≤ pyMin a b := by
  unfold pyMin
  split
  · exact hb
  · exact ha

/-- The strong Cole indicator is nonnegative. -/
theorem coleStrong_nonneg (b : Node) : 0 ≤ coleStrong b := by
  unfold coleStrong
  split <;> norm_num

/-- The weak Cole indicator preserves nonnegativity. -/
theorem coleWeak_nonneg (b : Node) (s : ℚ) (hs : 0 ≤ s) : 0 ≤ coleWeak b s := by
  unfold coleWeak
  split
  · exact hs
  · linarith

/-- The value of `detect_cole` is 0 or the clamped three-part sum for
the container it found. -/
theorem detect_cole_shape (h : Html) :
    detect_cole h = 0 ∨
      ∃ b, detect_cole h = pyMin 1 (coleWeak b (coleStrong b + 3/10)) := by
  unfold detect_cole
  split
  · exact Or.inl rfl
  · split
    · exact Or.inl rfl
    · split
      · exact Or.inr ⟨_, rfl⟩
      · exact Or.inl rfl

/-- Bounds for `detect_cole`. -/
theorem detect_cole_bounds (h : Html) : 0 ≤ detect_cole h ∧ detect_cole h ≤ 1 := by
  rcases detect_cole_shape h with h0 | ⟨b, hb⟩
  · rw [h0]; norm_num
  · rw [hb]
    exact ⟨pyMin_nonneg (by norm_num)
        (coleWeak_nonneg b _ (by linarith [coleStrong_nonneg b])),
      pyMin_le_left _ _⟩

/-- The value of `detect_max` is 0 or the clamped sum for the table it
selected. -/
theorem detect_max_shape (h : Html) :
    detect_max h = 0 ∨
      ∃ t, detect_max h =
        pyMin ((if maxMatched t ≠ 0 then
                  6/10 + 3/10 * ((maxMatched t : ℚ) / (REQUIRED_HEADERS_MAX.length : ℚ))
                else 6/10)
               + (if (maxBodyLinks t).length = 0 then 1/10 else 0)) 1 := by
  unfold detect_max
  split
  · exact Or.inl rfl
  · split
    · exact Or.inl rfl
    · exact Or.inr ⟨_, rfl⟩

/-- Bounds for `detect_max`. -/
theorem detect_max_bounds (h : Html) : 0 ≤ detect_max h ∧ detect_max h ≤ 1 := by
  rcases detect_max_shape h with h0 | ⟨t, ht⟩
  · rw [h0]; norm_num
  · rw [ht]
    refine ⟨pyMin_nonneg ?_ (by norm_num), pyMin_le_right _ _⟩
    have hadd : (0:ℚ) ≤ (if (maxBodyLinks t).length = 0 then (1:ℚ)/10 else 0) := by
      split <;> norm_num
    apply add_nonneg _ hadd
    split
    · have hfr : (0:ℚ) ≤ ((maxMatched t : ℚ) / (REQUIRED_HEADERS_MAX.length : ℚ)) := by
        positivity
      linarith
    · norm_num

/-- C8: every detector score lies in `[0, 1]`. -/
theorem claim_C8 (h : Html) :
    (0 ≤ detect_cole h ∧ detect_cole h ≤ 1) ∧
    (0 ≤ detect_max h ∧ detect_max h ≤ 1) :=
  ⟨detect_cole_bounds h, detect_max_bounds h⟩

/-- C9: `wrangle_cole` only recognizes a `<div>` with id
`meetResultsBody`, while `detect_cole` also accepts a class-marked or
non-div container — so on any page with no such div, `wrangle_cole`
returns no rows even when `detect_cole` scores at or above the 0.7
acceptance threshold. -/
theorem claim_C9 (h : Html) (u : Option String)
    (hdet : ratLeb (7/10) (detect_cole h) = true)
    (hdiv : wrangleDiv h = none) :
    wrangle_cole h u = [] := by
  simp [wrangle_cole, hdiv]

/-- Witness for C9: a container carrying `meetResultsBody` only as a
class token scores 1.0 with `detect_cole`, yet yields no rows. -/
theorem claim_C9_witness : wrangle_cole exC9 none = [] :=
  claim_C9 exC9 none (by decide) (by decide)

/-- C4 as amended, Cole extractor half: every row `wrangle_cole` emits
carries exactly the seven canonical columns, in order, with absent
data as `None`/`pd.NA` values rather than missing keys. -/
theorem claim_C4 (h : Html) (u : Option String) (r : Row)
    (hr : r ∈ wrangle_cole h u) : rowKeys r = INDIVIDUAL_TABLE_HEADERS := by
  simp only [wrangle_cole] at hr
  split at hr
  · simp at hr
  · split at hr
    · simp at hr
    · split at hr
      · simp at hr
      · split at hr
        · simp at hr
        · obtain ⟨ln, -, hlr⟩ := List.mem_filterMap.mp hr
          simp only [lineToRow] at hlr
          split at hlr
          · simp at hlr
          · rw [Option.some_inj] at hlr
            subst hlr
            rfl

/-- Witness for C4's amended theorem at Scenario A's page and row. -/
theorem claim_C4_witness : rowKeys row5 = INDIVIDUAL_TABLE_HEADERS :=
  claim_C4 exC5 none row5 (by decide)

/-- C4 counterexample: a table whose header-row cell classes name only
`place` and `athlete` passes the individual-table check (it is a subset
of the canonical headers), and every emitted row then carries only the
keys `race_id`, `race_url`, `place`, `athlete` — `video`, `grade`,
`team`, `finish` and `point` are missing keys, not nulls.  (The
extractor is evaluated with its race-id call slip corrected; as
written it raises `NameError` on every input, see C3.) -/
theorem claim_C4_cx :
    (extract_table_data_fixedName exC4 "u").map
        (fun o => o.individual.map rowKeys)
      = .ok [["race_id", "race_url", "place", "athlete"],
             ["race_id", "race_url", "place", "athlete"]] := rfl

/-- The only error `processOneTable` can produce is the `rows[1]`
index error. -/
theorem processOneTable_error_eq (rid : Option String) (url : String) (t : Node)
    (i : Nat) (e : String) (hp : processOneTable rid url t i = .error e) :
    e = indexErrorMsg := by
  simp only [processOneTable] at hp
  split at hp
  · simp at hp
  · split at hp
    · injection hp with h
      exact h.symm
    · split at hp
      · simp at hp
      · split at hp
        · simp at hp
        · simp at hp

/-- A table with exactly one `<tr>` makes `processOneTable` raise the
index error: the row list is nonempty, so the empty-table branch is
skipped, and `rows[1]` is out of bounds. -/
theorem processOneTable_oneRow (rid : Option String) (url : String) (t : Node)
    (i : Nat) (h1 : (descTag "tr" t).length = 1) :
    processOneTable rid url t i = .error indexErrorMsg := by
  obtain ⟨a, ha⟩ := List.length_eq_one.mp h1
  simp [processOneTable, ha]

/-- If some table of the list has exactly one `<tr>`, processing the
list raises the index error. -/
theorem processTables_error (rid : Option String) (url : String) (ts : List Node) :
    ∀ i : Nat, (ts.any fun t => (descTag "tr" t).length == 1) = true →
      processTables rid url ts i = .error indexErrorMsg := by
  induction ts with
  | nil => intro i hx; simp at hx
  | cons t ts ih =>
    intro i hx
    by_cases h1 : (descTag "tr" t).length = 1
    · unfold processTables
      rw [processOneTable_oneRow rid url t i h1]
    · have h2 : (ts.any fun t => (descTag "tr" t).length == 1) = true := by
        simp only [List.any_cons, Bool.or_eq_true, beq_iff_eq] at hx
        rcases hx with hh | hh
        · exact absurd hh h1
        · simpa using hh
      unfold processTables
      cases hpo : processOneTable rid url t i with
      | error e =>
        rw [processOneTable_error_eq rid url t i e hpo]
      | ok v =>
        obtain ⟨i1, t1, m1⟩ := v
        rw [ih (i + 1) h2]

/-- C10: `extract_table_data` reads the header cells from `rows[1]`,
the second row — so on any page containing a table with exactly one
`<tr>` the extraction fails with an `IndexError` instead of returning
result tables (shown on the variant with the race-id name slip
corrected; the function as written already fails on every input with a
`NameError`, see C3). -/
theorem claim_C10 (h : Html) (url : String)
    (hex : ((allTag "table" h).any fun t => (descTag "tr" t).length == 1) = true) :
    extract_table_data_fixedName h url = .error indexErrorMsg ∧
    extract_table_data h url = .error nameErrorMsg := by
  refine ⟨?_, rfl⟩
  have hne : (allTag "table" h).isEmpty = false := by
    cases hal : allTag "table" h with
    | nil => rw [hal] at hex; simp at hex
    | cons a as => simp [List.isEmpty]
  have hpt := processTables_error (extract_race_id url) url (allTag "table" h) 0 hex
  simp [extract_table_data_fixedName, extract_table_data_gen, hne, hpt]

/-- Witness for C10 at a page whose only table has one row. -/
theorem claim_C10_witness :
    extract_table_data_fixedName exC10 "http://x" = .error indexErrorMsg ∧
    extract_table_data exC10 "http://x" = .error nameErrorMsg :=
  claim_C10 exC10 "http://x" (by decide)

end MeetResults
